import Mathlib

/-!
Shallow embedding of the RYN4 relay driver (ESP32-RYN4 repository) and proofs
about its specification claims.

Conventions of the embedding:
* machine integers (`uint8_t`, `uint16_t`, `uint32_t`, `TickType_t`) are
  modelled as `Nat`; where unsigned wrap-around matters (tick subtraction)
  it is made explicit with a modulus;
* `float` configuration factors (`backoffMultiplier`, `jitterFactor`) are
  modelled as `Rat`, with the C++ `static_cast<TickType_t>` truncation made
  explicit via `Rat.floor`;
* FreeRTOS event groups are `Nat` bit sets; `xEventGroupSetBits` is `|||`,
  `xEventGroupClearBits mask` is `&&& (2^24 - 1 - mask)` on the 24 usable bits;
* the Modbus transport and the RTOS environment (mutex acquisition outcomes,
  tick counter, the pseudo-random source of the retry jitter) are passed in
  explicitly; every transport interaction an operation performs is recorded
  in a `List TransportCall` so that "zero transport calls" is a provable fact.
-/

namespace RYN4V

/-! ### src/ryn4/HardwareRegisters.h : protocol constants and codec -/

/-- `CMD_ON` (write-side encoding of ON). -/
def CMD_ON : Nat := 0x0100

/-- `CMD_OFF` (write-side encoding of OFF; does not cancel DELAY timers). -/
def CMD_OFF : Nat := 0x0200

/-- `CMD_TOGGLE`. -/
def CMD_TOGGLE : Nat := 0x0300

/-- `CMD_LATCH`. -/
def CMD_LATCH : Nat := 0x0400

/-- `CMD_MOMENTARY`. -/
def CMD_MOMENTARY : Nat := 0x0500

/-- `CMD_DELAY_BASE`; OR with seconds gives 0x0600-0x06FF, 0x0600 cancels. -/
def CMD_DELAY_BASE : Nat := 0x0600

/-- `CMD_ALL_ON`. -/
def CMD_ALL_ON : Nat := 0x0700

/-- `CMD_ALL_OFF`. -/
def CMD_ALL_OFF : Nat := 0x0800

/-- `STATUS_ON` (read-side encoding of ON). -/
def STATUS_ON : Nat := 0x0001

/-- `STATUS_OFF` (read-side encoding of OFF). -/
def STATUS_OFF : Nat := 0x0000

/-- `makeDelayCommand(seconds)` from HardwareRegisters.h:
`CMD_DELAY_BASE | (seconds & 0xFF)`. -/
def makeDelayCommand (seconds : Nat) : Nat := CMD_DELAY_BASE ||| (seconds &&& 0xFF)

/-- `statusToBool(statusValue)` from HardwareRegisters.h:
`statusValue == STATUS_ON`. -/
def statusToBool (statusValue : Nat) : Bool := statusValue == STATUS_ON

/-- `boolToCommand(state)` from HardwareRegisters.h:
`state ? CMD_ON : CMD_OFF`. -/
def boolToCommand (state : Bool) : Nat := if state then CMD_ON else CMD_OFF

/-! ### src/ryn4/RelayDefs.h : event bit layout -/

/-- `RELAY_STATUS_BITS[i]` (bits 0,3,6,...,21), transcribed from the
`RELAY1_STATUS_BIT .. RELAY8_STATUS_BIT` constants. -/
def RELAY_STATUS_BITS : Fin 8 → Nat
  | 0 => 1 <<< 0
  | 1 => 1 <<< 3
  | 2 => 1 <<< 6
  | 3 => 1 <<< 9
  | 4 => 1 <<< 12
  | 5 => 1 <<< 15
  | 6 => 1 <<< 18
  | 7 => 1 <<< 21

/-- `RELAY_UPDATE_BITS[i]` (bits 1,4,7,...,22), transcribed from the
`RELAY1_UPDATE_BIT .. RELAY8_UPDATE_BIT` constants. -/
def RELAY_UPDATE_BITS : Fin 8 → Nat
  | 0 => 1 <<< 1
  | 1 => 1 <<< 4
  | 2 => 1 <<< 7
  | 3 => 1 <<< 10
  | 4 => 1 <<< 13
  | 5 => 1 <<< 16
  | 6 => 1 <<< 19
  | 7 => 1 <<< 22

/-- `RELAY_ERROR_BITS[i]` (bits 2,5,8,...,23), transcribed from the
`RELAY1_ERROR_BIT .. RELAY8_ERROR_BIT` constants. -/
def RELAY_ERROR_BITS : Fin 8 → Nat
  | 0 => 1 <<< 2
  | 1 => 1 <<< 5
  | 2 => 1 <<< 8
  | 3 => 1 <<< 11
  | 4 => 1 <<< 14
  | 5 => 1 <<< 17
  | 6 => 1 <<< 20
  | 7 => 1 <<< 23

/-- Numeric value of the `enum class RelayUpdateBits` enumerator for relay
`i+1`, transcribed from the enumerator initialisers in RelayDefs.h (these are
independent literals, not references to the constants above). -/
def RelayUpdateBitsEnum : Fin 8 → Nat
  | 0 => 1 <<< 1
  | 1 => 1 <<< 4
  | 2 => 1 <<< 7
  | 3 => 1 <<< 10
  | 4 => 1 <<< 13
  | 5 => 1 <<< 16
  | 6 => 1 <<< 19
  | 7 => 1 <<< 22

/-- Numeric value of the `enum class RelayErrorBits` enumerator for relay
`i+1`, transcribed from the enumerator initialisers in RelayDefs.h. -/
def RelayErrorBitsEnum : Fin 8 → Nat
  | 0 => 1 <<< 2
  | 1 => 1 <<< 5
  | 2 => 1 <<< 8
  | 3 => 1 <<< 11
  | 4 => 1 <<< 14
  | 5 => 1 <<< 17
  | 6 => 1 <<< 20
  | 7 => 1 <<< 23

/-- `relayAllUpdateBits` from RYN4.cpp: OR of the eight `RelayUpdateBits`
enumerators. -/
def relayAllUpdateBits : Nat :=
  RelayUpdateBitsEnum 0 ||| RelayUpdateBitsEnum 1 ||| RelayUpdateBitsEnum 2 |||
  RelayUpdateBitsEnum 3 ||| RelayUpdateBitsEnum 4 ||| RelayUpdateBitsEnum 5 |||
  RelayUpdateBitsEnum 6 ||| RelayUpdateBitsEnum 7

/-- `relayAllErrorBits` from RYN4.cpp: OR of the eight `RelayErrorBits`
enumerators. -/
def relayAllErrorBits : Nat :=
  RelayErrorBitsEnum 0 ||| RelayErrorBitsEnum 1 ||| RelayErrorBitsEnum 2 |||
  RelayErrorBitsEnum 3 ||| RelayErrorBitsEnum 4 ||| RelayErrorBitsEnum 5 |||
  RelayErrorBitsEnum 6 ||| RelayErrorBitsEnum 7

/-- OR of the `RELAY_UPDATE_BITS` constant array, for comparison with
`relayAllUpdateBits`. -/
def allUpdateBitsFromArray : Nat :=
  (List.finRange 8).foldl (fun acc i => acc ||| RELAY_UPDATE_BITS i) 0

/-- OR of the `RELAY_ERROR_BITS` constant array, for comparison with
`relayAllErrorBits`. -/
def allErrorBitsFromArray : Nat :=
  (List.finRange 8).foldl (fun acc i => acc ||| RELAY_ERROR_BITS i) 0

/-! ### src/RetryPolicy.h : exponential backoff retry wrapper

`RetryPolicy::execute<T>` is specialised at `T = bool` (the instantiation used
by `executeVoid` and by every call site in the library), so a result value is
the `bool` returned by the operation and the default success predicate
`value != 0` is the value itself.  The FreeRTOS tick counter feeding the
pseudo-random jitter is abstracted into a stream `rand : Nat → Nat` giving the
`uint32_t` value `xTaskGetTickCount() * 1103515245 + 12345` observed before
the sleep that follows attempt number `attempt`. -/

/-- `RetryPolicy::Config`.  `backoffMultiplier` and `jitterFactor` are C++
`float`s, modelled as rationals. -/
structure RetryConfig where
  maxRetries : Nat
  initialDelay : Nat
  maxDelay : Nat
  backoffMultiplier : Rat
  jitterFactor : Rat

/-- Result of `RetryPolicy::execute<bool>`: the `success` / `attemptsMade`
fields of `RetryPolicy::Result`, plus the list of `vTaskDelay` sleep durations
(in ticks) performed between consecutive attempts, in order. -/
structure RetryOutcome where
  success : Bool
  attemptsMade : Nat
  sleeps : List Nat
  deriving DecidableEq, Repr

/-- The jittered sleep duration: `currentDelay * (1.0f + jitterFactor *
((random % 1000) / 1000.0f - 0.5f))` truncated back to `TickType_t`.
Only applied when `jitterFactor > 0`. -/
def jitteredDelay (cfg : RetryConfig) (random : Nat) (currentDelay : Nat) : Nat :=
  (⌊(currentDelay : Rat) *
    (1 + cfg.jitterFactor * (((random % 1000 : Nat) : Rat) / 1000 - 1 / 2))⌋).toNat

/-- The next backoff delay: `static_cast<TickType_t>(std::min(float(maxDelay),
sleptDelay * backoffMultiplier))`. -/
def nextBackoffDelay (cfg : RetryConfig) (sleptDelay : Nat) : Nat :=
  (⌊min (cfg.maxDelay : Rat) ((sleptDelay : Rat) * cfg.backoffMultiplier)⌋).toNat

/-- Loop body of `RetryPolicy::execute<bool>`.  `remaining` counts the retries
still allowed, so the C++ exit test `attempt == config_.maxRetries` is
`remaining == 0` (the loop starts at `attempt = 0`, `remaining = maxRetries`).
`op attempt` is the operation's result on its `attempt`-th invocation. -/
def executeLoop (cfg : RetryConfig) (op : Nat → Bool) (rand : Nat → Nat) :
    Nat → Nat → Nat → RetryOutcome
  | 0, attempt, _ =>
      { success := op attempt, attemptsMade := attempt + 1, sleeps := [] }
  | remaining + 1, attempt, currentDelay =>
      if op attempt then
        { success := true, attemptsMade := attempt + 1, sleeps := [] }
      else
        let slept :=
          if 0 < cfg.jitterFactor then jitteredDelay cfg (rand attempt) currentDelay
          else currentDelay
        let rest := executeLoop cfg op rand remaining (attempt + 1)
          (nextBackoffDelay cfg slept)
        { success := rest.success, attemptsMade := rest.attemptsMade,
          sleeps := slept :: rest.sleeps }

/-- `RetryPolicy::execute<bool>`: up to `maxRetries + 1` attempts of `op`,
sleeping with exponential backoff between failed attempts. -/
def RetryPolicy_execute (cfg : RetryConfig) (op : Nat → Bool) (rand : Nat → Nat) :
    RetryOutcome :=
  executeLoop cfg op rand cfg.maxRetries 0 cfg.initialDelay

/-- `RetryPolicies::modbusDefault()`: retries disabled (`maxRetries = 0`),
50 ms initial delay, 1000 ms max delay, multiplier 2.0, jitter 0.2
(ticks at the Arduino-ESP32 default of 1 tick = 1 ms). -/
def modbusDefault : RetryConfig :=
  { maxRetries := 0, initialDelay := 50, maxDelay := 1000,
    backoffMultiplier := 2, jitterFactor := 1 / 5 }

/-- `RetryPolicy::Config::aggressive()` (= `RetryPolicies::modbusCritical()`):
5 retries, 20 ms initial delay, 500 ms max delay, multiplier 1.5, default
jitter 0.1. -/
def aggressiveConfig : RetryConfig :=
  { maxRetries := 5, initialDelay := 20, maxDelay := 500,
    backoffMultiplier := 3 / 2, jitterFactor := 1 / 10 }


/-! ### The RYN4 driver state (src/RYN4.h, src/ryn4/RelayDefs.h)

The `RYN4` object's mutable fields that the claims are about: the
eight-element `relays` array, the three event groups (`xUpdateEventGroup`,
`xErrorEventGroup`, `xInitEventGroup`, modelled as `Nat` bit sets), the
`statusFlags` bit field and the `moduleSettings`.  The FreeRTOS handles are
created all-or-nothing in the constructor (any creation failure nulls every
handle), so a single `resourcesOk` flag models "the event groups and mutexes
exist".  The Modbus transport, the mutex-acquisition outcomes, the tick
counter and the jitter randomness are an explicit environment `Env`, and
every transport interaction is recorded as a `TransportCall`. -/

/-- `enum class RelayAction` (RelayDefs.h).  `NUM_ACTIONS` is a count
sentinel, not a constructible action (`intToRelayAction` only accepts ids
strictly below it), so it has no constructor here. -/
inductive RelayAction
  | OPEN | CLOSE | TOGGLE | LATCH | MOMENTARY | DELAY | OPEN_ALL | CLOSE_ALL
  deriving DecidableEq, Repr

/-- `enum class RelayErrorCode` (RelayDefs.h). -/
inductive RelayErrorCode
  | SUCCESS | INVALID_INDEX | MODBUS_ERROR | TIMEOUT | MUTEX_ERROR
  | NOT_INITIALIZED | UNKNOWN_ERROR
  deriving DecidableEq, Repr

/-- `enum class RelayMode` (RelayDefs.h). -/
inductive RelayMode
  | NORMAL | LATCHED | MOMENTARY | DELAY
  deriving DecidableEq, Repr

/-- `struct Relay` (RelayDefs.h); the `flags` bit field unpacked into its
four logical fields. -/
structure Relay where
  isOn : Bool
  mode : RelayMode
  lastCommandSuccess : Bool
  stateConfirmed : Bool
  lastUpdateTime : Nat
  deriving DecidableEq, Repr

/-- `ModuleSettings` as written by `handleConfigResponse` /
`initializeModuleSettings` (each a `uint8_t`). -/
structure ModuleSettings where
  rs485Address : Nat
  baudRate : Nat
  parity : Nat
  returnDelay : Nat
  deriving DecidableEq, Repr

/-- The mutable driver state the claims are about. -/
structure DriverState where
  relays : Fin 8 → Relay
  /-- `xUpdateEventGroup` bit set (24 usable bits). -/
  updateBits : Nat
  /-- `xErrorEventGroup` bit set. -/
  errorBits : Nat
  /-- `xInitEventGroup` bit set. -/
  initBits : Nat
  /-- `statusFlags.moduleOffline`. -/
  moduleOffline : Bool
  /-- `statusFlags.initialized`. -/
  initialized : Bool
  /-- event groups / mutexes were all created (the constructor nulls every
  handle if any creation fails, so one flag suffices). -/
  resourcesOk : Bool
  moduleSettings : ModuleSettings

/-- One Modbus transport interaction performed by an operation. -/
inductive TransportCall
  | readH (addr count : Nat)
  | writeSingleReg (addr value : Nat)
  | writeMultipleReg (addr : Nat) (data : List Nat)
  deriving DecidableEq, Repr

/-- The execution environment of one driver operation: the transport's
responses, the mutex-acquisition outcomes, the tick counter and the retry
jitter randomness. -/
structure Env where
  /-- `writeSingleRegister(addr, value).isOk()`. -/
  writeSingle : Nat → Nat → Bool
  /-- `writeMultipleRegisters(addr, data).isOk()`. -/
  writeMultiple : Nat → List Nat → Bool
  /-- `readHoldingRegisters(addr, count)`: `some values` on success. -/
  readHolding : Nat → Nat → Option (List Nat)
  /-- `MutexGuard(instanceMutex, ...)` succeeds. -/
  instanceMutexOk : Bool
  /-- `xSemaphoreTake(initMutex, 5000 ms)` succeeds. -/
  initMutexOk : Bool
  /-- outcome of `isModuleResponsive()` during initialization. -/
  responsive : Bool
  /-- `xTaskGetTickCount()`. -/
  tick : Nat
  /-- randomness stream feeding the retry jitter. -/
  rand : Nat → Nat

/-- The 24 usable event-group bits. -/
def EVENT_GROUP_MASK : Nat := 2 ^ 24 - 1

/-- `xEventGroupClearBits(group, mask)`: clear the given bits (the group only
holds the 24 usable bits, so the complement is taken within them). -/
def eventClearBits (g mask : Nat) : Nat :=
  g &&& (EVENT_GROUP_MASK ^^^ (mask &&& EVENT_GROUP_MASK))

/-- Replace relay `i`'s entry. -/
def updateRelay (s : DriverState) (i : Fin 8) (f : Relay → Relay) : DriverState :=
  { s with relays := Function.update s.relays i (f (s.relays i)) }

/-- `setUpdateEventBits` (RYN4Events.cpp): set bits if the group exists. -/
def setUpdateBits (s : DriverState) (mask : Nat) : DriverState :=
  if s.resourcesOk then { s with updateBits := s.updateBits ||| mask } else s

/-- `clearErrorEventBits` (RYN4Events.cpp). -/
def clearErrorBits (s : DriverState) (mask : Nat) : DriverState :=
  if s.resourcesOk then { s with errorBits := eventClearBits s.errorBits mask } else s

/-- `setErrorEventBits` (RYN4Events.cpp). -/
def setErrorBits (s : DriverState) (mask : Nat) : DriverState :=
  if s.resourcesOk then { s with errorBits := s.errorBits ||| mask } else s

/-- `InitBits::DEVICE_RESPONSIVE`. -/
def DEVICE_RESPONSIVE : Nat := 1 <<< 0

/-- `InitBits::RELAY_CONFIG`. -/
def RELAY_CONFIG_BIT : Nat := 1 <<< 1

/-- `InitBits::ALL_BITS`. -/
def INIT_ALL_BITS : Nat := DEVICE_RESPONSIVE ||| RELAY_CONFIG_BIT

/-- `setInitializationBit` (RYN4Events.cpp): no-op on a null group; the
already-set early-out has the same net effect as setting. -/
def setInitBit (s : DriverState) (bit : Nat) : DriverState :=
  if s.resourcesOk then { s with initBits := s.initBits ||| bit } else s

/-- Result of an operation returning a `RelayErrorCode`. -/
structure ControlOutcome where
  code : RelayErrorCode
  state : DriverState
  calls : List TransportCall

/-- Result of `readRelayStatus`: the error code, the by-reference `state`
out-parameter (`none` when the function returned without writing it), the
driver state and the transport calls. -/
structure StatusReadOutcome where
  code : RelayErrorCode
  readValue : Option Bool
  state : DriverState
  calls : List TransportCall

/-- The `switch (action)` of `RYN4::controlRelay` mapping actions to command
values; `DELAY` (which needs a parameter `controlRelay` does not take) exits
early and maps to `none`. -/
def controlCommandValue : RelayAction → Option Nat
  | .OPEN => some 0x0100
  | .CLOSE => some 0x0200
  | .TOGGLE => some 0x0300
  | .LATCH => some 0x0400
  | .MOMENTARY => some 0x0500
  | .DELAY => none
  | .OPEN_ALL => some 0x0700
  | .CLOSE_ALL => some 0x0800

/-- The expected post-command state computed by `controlRelay`'s second
`switch (action)` from the current relay state. -/
def expectedStateFor (action : RelayAction) (current : Bool) : Bool :=
  match action with
  | .OPEN => true
  | .CLOSE => false
  | .TOGGLE => !current
  | _ => current

/-- `RYN4::controlRelay` (RYN4Control.cpp).  The write goes through
`RetryPolicies::modbusDefault()` (0 retries, hence exactly one transport
attempt); the result cache touched by `invalidateCache()` is not part of this
model. -/
def controlRelay (env : Env) (s : DriverState) (relayIndex : Nat)
    (action : RelayAction) : ControlOutcome :=
  if s.moduleOffline then ⟨.MODBUS_ERROR, s, []⟩
  else if ¬ s.resourcesOk then ⟨.UNKNOWN_ERROR, s, []⟩
  else if h : relayIndex < 1 ∨ 8 < relayIndex then ⟨.INVALID_INDEX, s, []⟩
  else
    let idx : Fin 8 := ⟨relayIndex - 1, by omega⟩
    match controlCommandValue action with
    | none =>
        ⟨.UNKNOWN_ERROR,
         updateRelay s idx (fun r => { r with lastCommandSuccess := false }), []⟩
    | some commandValue =>
        let registerAddress := relayIndex - 1
        let result := RetryPolicy_execute modbusDefault
          (fun _ => env.writeSingle registerAddress commandValue) env.rand
        let calls := List.replicate result.attemptsMade
          (TransportCall.writeSingleReg registerAddress commandValue)
        if result.success then
          let expected := expectedStateFor action (s.relays idx).isOn
          let s1 := updateRelay s idx (fun r =>
            { r with lastCommandSuccess := true, lastUpdateTime := env.tick,
                     stateConfirmed := false, isOn := expected })
          let s2 := setUpdateBits (clearErrorBits s1 (RELAY_ERROR_BITS idx))
            (RELAY_UPDATE_BITS idx)
          ⟨.SUCCESS, s2, calls⟩
        else
          let s1 := updateRelay s idx (fun r =>
            { r with lastCommandSuccess := false, stateConfirmed := false })
          ⟨.MODBUS_ERROR, setErrorBits s1 (RELAY_ERROR_BITS idx), calls⟩

/-- `RYN4::readRelayStatus` (RYN4Modbus.cpp).  Note that on a successful read
the state-store write is guarded by the mutex but the update bit is set
unconditionally (outside the guard), and it is set even when the value read
equals the stored one. -/
def readRelayStatus (env : Env) (s : DriverState) (relayIndex : Nat) :
    StatusReadOutcome :=
  if s.moduleOffline then ⟨.MODBUS_ERROR, none, s, []⟩
  else if h : relayIndex < 1 ∨ 8 < relayIndex then ⟨.INVALID_INDEX, none, s, []⟩
  else
    let idx : Fin 8 := ⟨relayIndex - 1, by omega⟩
    let registerAddr := relayIndex - 1
    let calls := [TransportCall.readH registerAddr 1]
    match env.readHolding registerAddr 1 with
    | some (v :: _) =>
        let st := v == 0x0001
        let s1 := if env.instanceMutexOk then
            updateRelay s idx (fun r => { r with isOn := st, stateConfirmed := true })
          else s
        ⟨.SUCCESS, some st, setUpdateBits s1 (RELAY_UPDATE_BITS idx), calls⟩
    | _ => ⟨.MODBUS_ERROR, none, s, calls⟩

/-- The per-channel body of `readAllRelayStatus`'s loop: record the decoded
confirmed value for channel `i` and set its update bit only when the value
changed. -/
def readAllStep (env : Env) (vs : List Nat) (acc : DriverState) (i : Fin 8) :
    DriverState :=
  let st := vs.getD i 0 == 0x0001
  let prev := (acc.relays i).isOn
  let acc1 := updateRelay acc i (fun r =>
    { r with isOn := st, stateConfirmed := true, lastUpdateTime := env.tick })
  if prev != st then setUpdateBits acc1 (RELAY_UPDATE_BITS i) else acc1

/-- `RYN4::readAllRelayStatus` (RYN4Modbus.cpp): one batch read of all eight
status registers; per channel, the update bit is set only when the value
changed; finally the `RELAY_CONFIG` init bit is raised. -/
def readAllRelayStatus (env : Env) (s : DriverState) : ControlOutcome :=
  if s.moduleOffline then ⟨.MODBUS_ERROR, s, []⟩
  else
    let calls := [TransportCall.readH 0 8]
    match env.readHolding 0 8 with
    | some vs =>
        if vs.length == 8 then
          if ¬ env.instanceMutexOk then ⟨.MUTEX_ERROR, s, calls⟩
          else
            let s1 := (List.finRange 8).foldl (readAllStep env vs) s
            ⟨.SUCCESS, setInitBit s1 RELAY_CONFIG_BIT, calls⟩
        else ⟨.MODBUS_ERROR, s, calls⟩
    | none => ⟨.MODBUS_ERROR, s, calls⟩

/-- `RYN4::setMultipleRelayStates` (RYN4Control.cpp).  In the default build
`RYN4_ENABLE_OPTIMISTIC_UPDATES` is not defined, so the optimistic
state-update block is compiled out and a successful batch write leaves the
relay array and event bits unchanged (only the result cache, not modelled, is
invalidated). -/
def setMultipleRelayStates (env : Env) (s : DriverState) (states : Fin 8 → Bool) :
    ControlOutcome :=
  if s.moduleOffline then ⟨.MODBUS_ERROR, s, []⟩
  else
    let data := (List.finRange 8).map (fun i => if states i then 0x0100 else 0x0200)
    let result := RetryPolicy_execute modbusDefault
      (fun _ => env.writeMultiple 0 data) env.rand
    let calls := List.replicate result.attemptsMade (TransportCall.writeMultipleReg 0 data)
    if result.success then ⟨.SUCCESS, s, calls⟩ else ⟨.MODBUS_ERROR, s, calls⟩

/-- `RYN4::RelayCommandSpec` (RYN4.h). -/
structure RelayCommandSpec where
  action : RelayAction
  delaySeconds : Nat

/-- The per-relay `switch` of `setMultipleRelayCommands` (RYN4MultiCommand.cpp;
that file spells the single/broadcast actions `ON`/`OFF`/`ALL_ON`/`ALL_OFF`
for the enumerators called `OPEN`/`CLOSE`/`OPEN_ALL`/`CLOSE_ALL` in
RelayDefs.h): broadcast actions are invalid in a multi-command and fall back
to `CMD_OFF`. -/
def multiCommandValue (spec : RelayCommandSpec) : Nat :=
  match spec.action with
  | .OPEN => CMD_ON
  | .CLOSE => CMD_OFF
  | .TOGGLE => CMD_TOGGLE
  | .LATCH => CMD_LATCH
  | .MOMENTARY => CMD_MOMENTARY
  | .DELAY => makeDelayCommand spec.delaySeconds
  | .OPEN_ALL => CMD_OFF
  | .CLOSE_ALL => CMD_OFF

/-- `RYN4::setMultipleRelayCommands` (RYN4MultiCommand.cpp): one FC 0x10
batch write of the per-relay command values; state updates are left to the
asynchronous hardware response, so the driver state is unchanged. -/
def setMultipleRelayCommands (env : Env) (s : DriverState)
    (commands : Fin 8 → RelayCommandSpec) : ControlOutcome :=
  if s.moduleOffline then ⟨.MODBUS_ERROR, s, []⟩
  else
    let data := (List.finRange 8).map (fun i => multiCommandValue (commands i))
    let result := RetryPolicy_execute modbusDefault
      (fun _ => env.writeMultiple 0 data) env.rand
    let calls := List.replicate result.attemptsMade (TransportCall.writeMultipleReg 0 data)
    if result.success then ⟨.SUCCESS, s, calls⟩ else ⟨.MODBUS_ERROR, s, calls⟩

/-- `RYN4::getRelayState` (RYN4State.cpp): a pure query (no transport, no
state mutation). -/
def getRelayState (env : Env) (s : DriverState) (relayIndex : Nat) :
    Except RelayErrorCode Bool :=
  if h : relayIndex < 1 ∨ 8 < relayIndex then .error .INVALID_INDEX
  else if ¬ env.instanceMutexOk then .error .MUTEX_ERROR
  else .ok (s.relays ⟨relayIndex - 1, by omega⟩).isOn

/-- `RYN4::handleRelayStatusResponse` (RYN4Modbus.cpp): decode big-endian
16-bit status words for relays `startAddress, startAddress+1, ...`; per
channel, record the confirmed value and set the update bit only when it
changed.  The C++ loop runs `i` from 0 while `i < relayCount` and
`startAddress + i < NUM_RELAYS`; both bounds are monotone in `i`, so folding
over the positions `j : Fin 8` with `startAddress ≤ j < startAddress +
relayCount` visits exactly the same channels in the same order. -/
def hrsrStep (env : Env) (startAddress : Nat) (data : List Nat)
    (acc : DriverState) (j : Fin 8) : DriverState :=
  if startAddress ≤ (j : Nat) ∧ (j : Nat) - startAddress < data.length / 2 then
    let i := (j : Nat) - startAddress
    let relayValue := (data.getD (i * 2) 0) <<< 8 ||| data.getD (i * 2 + 1) 0
    let newState := relayValue == 0x0001
    let prev := (acc.relays j).isOn
    let acc1 := updateRelay acc j (fun r =>
      { r with isOn := newState, stateConfirmed := true, lastUpdateTime := env.tick })
    if prev != newState then setUpdateBits acc1 (RELAY_UPDATE_BITS j) else acc1
  else acc

/-- `RYN4::handleRelayStatusResponse` proper: nothing happens when the mutex
cannot be taken, otherwise each addressed channel is processed in order. -/
def handleRelayStatusResponse (env : Env) (s : DriverState) (startAddress : Nat)
    (data : List Nat) : DriverState :=
  if ¬ env.instanceMutexOk then s
  else (List.finRange 8).foldl (hrsrStep env startAddress data) s

/-! ### src/RYN4Config.cpp : initializeModuleSettings -/

/-- `RYN4::InitConfig` (RYN4.h). -/
structure InitConfig where
  resetRelaysOnInit : Bool := true
  skipRelayStateRead : Bool := false

/-- Result of `initializeModuleSettings`. -/
structure InitOutcome where
  ok : Bool
  state : DriverState
  calls : List TransportCall

/-- The relay-reset block of `initializeModuleSettings` (RYN4Config.cpp,
`if (initConfig.resetRelaysOnInit)`): write DELAY 0 (`CMD_DELAY_BASE` =
0x0600, the only command that cancels an active delay timer; NOT `CMD_OFF`
and NOT `CMD_ALL_OFF`) to all eight channel registers in one FC 0x10 write;
on success record every channel as OFF and confirmed and clear all 24 update
event bits; on failure continue with the state untouched. -/
def relayResetStep (env : Env) (s : DriverState) : DriverState × List TransportCall :=
  let delayZeroData := List.replicate 8 CMD_DELAY_BASE
  let call := [TransportCall.writeMultipleReg 0 delayZeroData]
  if env.writeMultiple 0 delayZeroData then
    let s1 := (List.finRange 8).foldl (fun acc i =>
      updateRelay acc i (fun r =>
        { r with isOn := false, stateConfirmed := true, lastUpdateTime := env.tick })) s
    ({ s1 with updateBits := eventClearBits s1.updateBits 0x00FFFFFF }, call)
  else (s, call)

/-- The baseline status-seeding block of `initializeModuleSettings`
(RYN4Config.cpp, `if (!initConfig.skipRelayStateRead)`): one batch read of
all eight channel registers; on success record each channel confirmed and set
its STATUS bit when ON; on batch failure fall back to eight per-channel
reads, leaving a channel untouched (hence unconfirmed if it was) when its
individual read fails. -/
def seedRelayStatesStep (env : Env) (s : DriverState) : DriverState × List TransportCall :=
  let batchCall := [TransportCall.readH 0 8]
  let fallback : DriverState × List TransportCall :=
    (List.finRange 8).foldl (fun (acc : DriverState × List TransportCall) i =>
      let acc1 := (acc.1, acc.2 ++ [TransportCall.readH (i : Nat) 1])
      match env.readHolding (i : Nat) 1 with
      | some (v :: _) =>
          let st := v == 0x0001
          let s1 := updateRelay acc1.1 i (fun r =>
            { r with isOn := st, stateConfirmed := true, lastUpdateTime := env.tick })
          (if st then { s1 with updateBits := s1.updateBits ||| RELAY_STATUS_BITS i }
           else s1, acc1.2)
      | _ => acc1) (s, batchCall)
  match env.readHolding 0 8 with
  | some vs =>
      if vs.length == 8 then
        let s1 := (List.finRange 8).foldl (fun acc i =>
          let st := vs.getD i 0 == 0x0001
          let s2 := updateRelay acc i (fun r =>
            { r with isOn := st, stateConfirmed := true, lastUpdateTime := env.tick })
          if st then { s2 with updateBits := s2.updateBits ||| RELAY_STATUS_BITS i }
          else s2) s
        (s1, batchCall)
      else fallback
  | none => fallback

/-- `RYN4::initializeModuleSettings` (RYN4Config.cpp): take the init mutex,
probe responsiveness (marking the module offline on failure), read the four
configuration registers 0x00FD/0x00FE/0x00FF/0x00FC (any failure aborts with
`false`), optionally reset all relays to the DELAY-0 baseline, seed the relay
states (or mark all unconfirmed when skipped), raise `DEVICE_RESPONSIVE`,
raise `RELAY_CONFIG` only if every channel is confirmed — and then
unconditionally set `ALL_BITS` and `initialized` before returning `true`. -/
def initializeModuleSettings (env : Env) (cfg : InitConfig) (s : DriverState) :
    InitOutcome :=
  if ¬ env.initMutexOk then ⟨false, s, []⟩
  else if ¬ env.responsive then ⟨false, { s with moduleOffline := true }, []⟩
  else
    match env.readHolding 0xFD 1 with
    | some (a :: _) =>
      let s := { s with moduleSettings.rs485Address := a &&& 0xFF }
      match env.readHolding 0xFE 1 with
      | some (b :: _) =>
        let s := { s with moduleSettings.baudRate := b &&& 0xFF }
        match env.readHolding 0xFF 1 with
        | some (p :: _) =>
          let s := { s with moduleSettings.parity := p &&& 0xFF }
          match env.readHolding 0xFC 1 with
          | some (d :: _) =>
            let s := { s with moduleSettings.returnDelay := d &&& 0xFF }
            let configCalls := [TransportCall.readH 0xFD 1, TransportCall.readH 0xFE 1,
              TransportCall.readH 0xFF 1, TransportCall.readH 0xFC 1]
            let resetOut := if cfg.resetRelaysOnInit then relayResetStep env s else (s, [])
            let seedOut :=
              if ¬ cfg.skipRelayStateRead then seedRelayStatesStep env resetOut.1
              else ((List.finRange 8).foldl (fun acc i =>
                updateRelay acc i (fun r => { r with stateConfirmed := false }))
                resetOut.1, [])
            let s := setInitBit seedOut.1 DEVICE_RESPONSIVE
            let allRelaysRead := (List.finRange 8).all fun i => (s.relays i).stateConfirmed
            let s := if allRelaysRead then setInitBit s RELAY_CONFIG_BIT else s
            let s := { s with initialized := true, initBits := s.initBits ||| INIT_ALL_BITS }
            ⟨true, s, configCalls ++ resetOut.2 ++ seedOut.2⟩
          | _ => ⟨false, s, [TransportCall.readH 0xFD 1, TransportCall.readH 0xFE 1,
              TransportCall.readH 0xFF 1, TransportCall.readH 0xFC 1]⟩
        | _ => ⟨false, s, [TransportCall.readH 0xFD 1, TransportCall.readH 0xFE 1,
            TransportCall.readH 0xFF 1]⟩
      | _ => ⟨false, s, [TransportCall.readH 0xFD 1, TransportCall.readH 0xFE 1]⟩
    | _ => ⟨false, s, [TransportCall.readH 0xFD 1]⟩

/-- The relay state as initialised by the `RYN4` constructor (RYN4.cpp):
off, unconfirmed, last command "successful", time 0.  `setMode` is never
called there, so the mode keeps the bit pattern of the default `flags` byte
`0x04`, whose mode bits `(0x04 >> 1) & 0x03 = 2` decode to `MOMENTARY`. -/
def initialRelay : Relay :=
  { isOn := false, mode := .MOMENTARY, lastCommandSuccess := true,
    stateConfirmed := false, lastUpdateTime := 0 }

/-- The driver state right after a successful `RYN4` constructor run: all
event groups created and cleared, all flags down. -/
def initialDriverState : DriverState :=
  { relays := fun _ => initialRelay, updateBits := 0, errorBits := 0, initBits := 0,
    moduleOffline := false, initialized := false, resourcesOk := true,
    moduleSettings := ⟨0, 0, 0, 0⟩ }

/-! ### example/RYN4-TimingTest/src/tasks/RelayControlTask.cpp :
rate limiter and command queue

`TickType_t` arithmetic is the 32-bit unsigned arithmetic of FreeRTOS ticks;
`pdMS_TO_TICKS` uses the Arduino-ESP32 default `configTICK_RATE_HZ = 1000`
(1 tick = 1 ms). -/

/-- 32-bit unsigned subtraction `a - b` (for `a, b < 2^32`). -/
def wsub (a b : Nat) : Nat := (2 ^ 32 + a - b) % 2 ^ 32

/-- Arduino-ESP32 default FreeRTOS tick rate. -/
def configTICK_RATE_HZ : Nat := 1000

/-- `pdMS_TO_TICKS`. -/
def pdMS_TO_TICKS (ms : Nat) : Nat := ms * configTICK_RATE_HZ / 1000

/-- `MIN_RELAY_SWITCH_INTERVAL_MS` (ProjectConfig.h). -/
def MIN_RELAY_SWITCH_INTERVAL_MS : Nat := 150

/-- `MAX_RELAY_TOGGLE_RATE_PER_MIN` (ProjectConfig.h). -/
def MAX_RELAY_TOGGLE_RATE_PER_MIN : Nat := 30

/-- The static rate-limit bookkeeping of `RelayControlTask`. -/
structure RateLimitState where
  toggleTimestamps : Fin 8 → Nat
  toggleCount : Fin 8 → Nat
  rateWindowStart : Nat

/-- `RelayControlTask::checkRateLimit(relayIndex)` at tick `now`: reject an
out-of-range index, a toggle less than `MIN_RELAY_SWITCH_INTERVAL_MS` after
the channel's previous one, or a channel already at
`MAX_RELAY_TOGGLE_RATE_PER_MIN` toggles; otherwise admit and update the
channel's timestamp and count. -/
def checkRateLimit (now : Nat) (s : RateLimitState) (relayIndex : Nat) :
    Bool × RateLimitState :=
  if h : relayIndex < 1 ∨ 8 < relayIndex then (false, s)
  else
    let idx : Fin 8 := ⟨relayIndex - 1, by omega⟩
    if s.toggleTimestamps idx ≠ 0 ∧
        wsub now (s.toggleTimestamps idx) < pdMS_TO_TICKS MIN_RELAY_SWITCH_INTERVAL_MS then
      (false, s)
    else if MAX_RELAY_TOGGLE_RATE_PER_MIN ≤ s.toggleCount idx then
      (false, s)
    else
      (true,
       { s with toggleTimestamps := Function.update s.toggleTimestamps idx now,
                toggleCount := Function.update s.toggleCount idx (s.toggleCount idx + 1) })

/-- `RelayControlTask::updateRateLimitCounters()` at tick `now`: zero every
channel's toggle count and restart the window, but only once 60 s have
elapsed since `rateWindowStart`. -/
def updateRateLimitCounters (now : Nat) (s : RateLimitState) : RateLimitState :=
  if pdMS_TO_TICKS 60000 ≤ wsub now s.rateWindowStart then
    { s with toggleCount := fun _ => 0, rateWindowStart := now }
  else s

/-- A sequence of `checkRateLimit` calls for one channel at the given ticks,
collecting the admit/reject verdicts. -/
def runRateChecks (relayIndex : Nat) : List Nat → RateLimitState →
    List Bool × RateLimitState
  | [], s => ([], s)
  | t :: ts, s =>
      let first := checkRateLimit t s relayIndex
      let rest := runRateChecks relayIndex ts first.2
      (first.1 :: rest.1, rest.2)

/-- The rate-limit state right after `RelayControlTask::initialize` (counts
and timestamps zeroed, window started at tick `t0`). -/
def freshRateLimitState (t0 : Nat) : RateLimitState :=
  ⟨fun _ => 0, fun _ => 0, t0⟩

/-- `RelayControlTask::CommandType`. -/
inductive CommandType
  | SET_SINGLE | SET_ALL | SET_MULTIPLE | TOGGLE | TOGGLE_ALL
  | READ_CONFIG | SET_CONFIG
  deriving DecidableEq, Repr

/-- `RelayControlTask::RelayCommand`. -/
structure RelayCommand where
  type : CommandType
  relayIndex : Nat
  state : Bool
  states : Fin 8 → Bool
  stateCount : Nat
  timestamp : Nat

/-- The bounded FreeRTOS command queue (`xQueueCreate(queueDepth, ...)`):
its stored items, oldest first, and its capacity. -/
structure CommandQueue where
  items : List RelayCommand
  capacity : Nat

/-- `uxQueueSpacesAvailable`. -/
def uxQueueSpacesAvailable (q : CommandQueue) : Nat := q.capacity - q.items.length

/-- `RelayControlTask::queueCommand(cmd)`: fail on an uncreated queue, reject
immediately when no space is available, otherwise enqueue (with a space free,
the `xQueueSend` with its 100 ms timeout succeeds at once since this task is
the only producer path through this check). -/
def queueCommand (q : Option CommandQueue) (cmd : RelayCommand) :
    Bool × Option CommandQueue :=
  match q with
  | none => (false, none)
  | some q =>
      if uxQueueSpacesAvailable q == 0 then (false, some q)
      else (true, some { q with items := q.items ++ [cmd] })

/-! ### Concrete sample inputs shared by the instantiation theorems -/

/-- A benign deterministic environment: every write succeeds, every read
returns a single OFF status word, every mutex is available. -/
def sampleEnv : Env :=
  { writeSingle := fun _ _ => true, writeMultiple := fun _ _ => true,
    readHolding := fun _ _ => some [0], instanceMutexOk := true,
    initMutexOk := true, responsive := true, tick := 7, rand := fun _ => 0 }

/-- The constructor state with the offline flag raised. -/
def offlineDriverState : DriverState :=
  { initialDriverState with moduleOffline := true }

/-- Environment for exercising the initialization fallback path: the four
configuration registers read fine, the batch status read fails, channel 1's
individual status read fails, channels 2..8 read OFF. -/
def c4Env : Env :=
  { writeSingle := fun _ _ => true, writeMultiple := fun _ _ => true,
    readHolding := fun addr count =>
      if addr = 0xFD then some [0x05]
      else if addr = 0xFE then some [0]
      else if addr = 0xFF then some [0]
      else if addr = 0xFC then some [0]
      else if addr = 0 ∧ count = 8 then none
      else if addr = 0 ∧ count = 1 then none
      else if count = 1 ∧ addr < 8 then some [0]
      else none,
    instanceMutexOk := true, initMutexOk := true, responsive := true,
    tick := 9, rand := fun _ => 0 }

/-- Environment whose batch status read reports channel 1 ON and channels
2..8 OFF, and whose single-register reads report ON. -/
def c2Env : Env :=
  { writeSingle := fun _ _ => true, writeMultiple := fun _ _ => true,
    readHolding := fun addr count =>
      if addr = 0 ∧ count = 8 then some [1, 0, 0, 0, 0, 0, 0, 0] else some [1],
    instanceMutexOk := true, initMutexOk := true, responsive := true,
    tick := 11, rand := fun _ => 0 }

/-- A sample queued command. -/
def sampleCommand : RelayCommand :=
  { type := .SET_SINGLE, relayIndex := 1, state := false,
    states := fun _ => false, stateCount := 0, timestamp := 0 }

/-! ### Helper lemmas about the state operations and the retry loop -/

theorem executeLoop_attempts_of_never (cfg : RetryConfig) (rand : Nat → Nat)
    (op : Nat → Bool) (hop : ∀ n, op n = false) :
    ∀ remaining attempt currentDelay,
      (executeLoop cfg op rand remaining attempt currentDelay).success = false ∧
      (executeLoop cfg op rand remaining attempt currentDelay).attemptsMade =
        attempt + remaining + 1 := by
  intro remaining
  induction remaining with
  | zero =>
      intro attempt currentDelay
      simp [executeLoop, hop]
  | succ r ih =>
      intro attempt currentDelay
      obtain ⟨h1, h2⟩ := ih (attempt + 1)
        (nextBackoffDelay cfg (if 0 < cfg.jitterFactor then
          jitteredDelay cfg (rand attempt) currentDelay else currentDelay))
      simp only [executeLoop, hop, Bool.false_eq_true, if_false]
      exact ⟨h1, by rw [h2]; omega⟩

theorem executeLoop_sleeps_bound (cfg : RetryConfig) (rand : Nat → Nat)
    (op : Nat → Bool) (hjit : cfg.jitterFactor = 0) :
    ∀ remaining attempt currentDelay,
      ∀ d ∈ (executeLoop cfg op rand remaining attempt currentDelay).sleeps,
        d ≤ max currentDelay cfg.maxDelay := by
  intro remaining
  induction remaining with
  | zero => intro attempt currentDelay d hd; simp [executeLoop] at hd
  | succ r ih =>
      intro attempt currentDelay d hd
      simp only [executeLoop] at hd
      by_cases hop : op attempt
      · simp [hop] at hd
      · simp only [hop, hjit, Bool.false_eq_true, if_false, lt_self_iff_false,
          List.mem_cons] at hd
        rcases hd with hd | hd
        · subst hd; exact le_max_left _ _
        · have hnext : nextBackoffDelay cfg currentDelay ≤ cfg.maxDelay := by
            have hfl : ⌊min (cfg.maxDelay : Rat)
                ((currentDelay : Rat) * cfg.backoffMultiplier)⌋ ≤ (cfg.maxDelay : Int) := by
              calc ⌊min (cfg.maxDelay : Rat) ((currentDelay : Rat) * cfg.backoffMultiplier)⌋
                  ≤ ⌊((cfg.maxDelay : Nat) : Rat)⌋ := Int.floor_le_floor (min_le_left _ _)
                _ = (cfg.maxDelay : Int) := Int.floor_natCast _
            unfold nextBackoffDelay
            omega
          have hrec := ih (attempt + 1) (nextBackoffDelay cfg currentDelay) d hd
          calc d ≤ max (nextBackoffDelay cfg currentDelay) cfg.maxDelay := hrec
            _ ≤ cfg.maxDelay := max_le hnext le_rfl
            _ ≤ max currentDelay cfg.maxDelay := le_max_right _ _


theorem setUpdateBits_relays (s : DriverState) (m : Nat) :
    (setUpdateBits s m).relays = s.relays := by
  unfold setUpdateBits; split <;> rfl

theorem updateRelay_relays_ne (s : DriverState) (i : Fin 8) (f : Relay → Relay)
    (k : Fin 8) (h : k ≠ i) : (updateRelay s i f).relays k = s.relays k := by
  simp [updateRelay, Function.update_noteq h]

theorem updateRelay_relays_same (s : DriverState) (i : Fin 8) (f : Relay → Relay) :
    (updateRelay s i f).relays i = f (s.relays i) := by
  simp [updateRelay]

theorem RELAY_UPDATE_BITS_pow (j : Fin 8) :
    RELAY_UPDATE_BITS j = 2 ^ (3 * (j : Nat) + 1) := by revert j; decide

/-- A per-channel fold step that never writes to another channel's relay
entry leaves unlisted channels' entries alone. -/
theorem foldl_relays_untouched (step : DriverState → Fin 8 → DriverState)
    (H1 : ∀ acc j k, k ≠ j → (step acc j).relays k = acc.relays k) :
    ∀ (l : List (Fin 8)) (acc : DriverState) (k : Fin 8), k ∉ l →
      (l.foldl step acc).relays k = acc.relays k := by
  intro l
  induction l with
  | nil => intro acc k _; rfl
  | cons j l ih =>
      intro acc k hk
      rw [List.foldl_cons, ih _ _ (by simp_all),
        H1 acc j k (by simp_all)]

/-- If every step of a per-channel fold (a) writes only its own channel's
relay entry and (b) either leaves the update-bit group unchanged or ORs in
exactly its own channel's update bit while recording a changed, confirmed
value, then any update bit the fold raises belongs to a channel whose final
entry is confirmed and differs from its initial one. -/
theorem foldl_update_bit_only_changed (step : DriverState → Fin 8 → DriverState)
    (H1 : ∀ acc j k, k ≠ j → (step acc j).relays k = acc.relays k)
    (H2 : ∀ acc j,
      (step acc j).updateBits = acc.updateBits ∨
      ((step acc j).updateBits = acc.updateBits ||| RELAY_UPDATE_BITS j ∧
       ((step acc j).relays j).stateConfirmed = true ∧
       ((step acc j).relays j).isOn ≠ (acc.relays j).isOn)) :
    ∀ (l : List (Fin 8)), l.Nodup → ∀ (acc : DriverState) (k : Fin 8),
      (l.foldl step acc).updateBits.testBit (3 * (k : Nat) + 1) = true →
      acc.updateBits.testBit (3 * (k : Nat) + 1) = true ∨
        (((l.foldl step acc).relays k).stateConfirmed = true ∧
         ((l.foldl step acc).relays k).isOn ≠ (acc.relays k).isOn) := by
  intro l
  induction l with
  | nil => intro _ acc k h; exact Or.inl h
  | cons j l ih =>
      intro hl acc k hbit
      rw [List.nodup_cons] at hl
      rw [List.foldl_cons] at hbit ⊢
      by_cases hkj : k = j
      · subst hkj
        have hfix : (l.foldl step (step acc k)).relays k = (step acc k).relays k :=
          foldl_relays_untouched step H1 l (step acc k) k hl.1
        rcases H2 acc k with h2 | ⟨_, hconf, hne⟩
        · -- this step left the bits alone; the bit must come from `acc`
          rcases ih hl.2 (step acc k) k hbit with hb | ⟨_, hne⟩
          · exact Or.inl (h2 ▸ hb)
          · rw [hfix] at hne; exact absurd rfl hne
        · exact Or.inr ⟨hfix ▸ hconf, hfix ▸ hne⟩
      · have hvk : (3 : Nat) * (k : Nat) + 1 ≠ 3 * (j : Nat) + 1 := by
          have : (k : Nat) ≠ (j : Nat) := fun h => hkj (Fin.ext h)
          omega
        have hstepbit : (step acc j).updateBits.testBit (3 * (k : Nat) + 1) =
            acc.updateBits.testBit (3 * (k : Nat) + 1) := by
          rcases H2 acc j with h2 | ⟨h2, _, _⟩
          · rw [h2]
          · rw [h2, RELAY_UPDATE_BITS_pow, Nat.testBit_lor,
              Nat.testBit_two_pow_of_ne (Ne.symm hvk), Bool.or_false]
        have hsteprel : (step acc j).relays k = acc.relays k := H1 acc j k hkj
        rcases ih hl.2 (step acc j) k hbit with hb | ⟨hconf, hne⟩
        · exact Or.inl (hstepbit ▸ hb)
        · exact Or.inr ⟨hconf, hsteprel ▸ hne⟩

/-- `readAllStep` writes only its own channel's relay entry. -/
theorem readAllStep_relays_ne (env : Env) (vs : List Nat) (acc : DriverState)
    (j k : Fin 8) (h : k ≠ j) : (readAllStep env vs acc j).relays k = acc.relays k := by
  unfold readAllStep
  by_cases hch : (acc.relays j).isOn != (vs.getD j 0 == 0x0001)
  · rw [if_pos hch, setUpdateBits_relays, updateRelay_relays_ne _ _ _ _ h]
  · rw [if_neg hch]
    exact updateRelay_relays_ne _ _ _ _ h

/-- `readAllStep` raises only its own channel's update bit, and only while
recording a changed, confirmed value. -/
theorem readAllStep_update_spec (env : Env) (vs : List Nat) (acc : DriverState)
    (j : Fin 8) :
    (readAllStep env vs acc j).updateBits = acc.updateBits ∨
    ((readAllStep env vs acc j).updateBits = acc.updateBits ||| RELAY_UPDATE_BITS j ∧
     ((readAllStep env vs acc j).relays j).stateConfirmed = true ∧
     ((readAllStep env vs acc j).relays j).isOn ≠ (acc.relays j).isOn) := by
  unfold readAllStep
  by_cases hch : (acc.relays j).isOn != (vs.getD j 0 == 0x0001)
  · rw [if_pos hch]
    by_cases hres : acc.resourcesOk
    · right
      refine ⟨by simp [setUpdateBits, updateRelay, hres], ?_, ?_⟩
      · rw [setUpdateBits_relays, updateRelay_relays_same]
      · rw [setUpdateBits_relays, updateRelay_relays_same]
        exact Ne.symm (bne_iff_ne.mp hch)
    · left; simp [setUpdateBits, updateRelay, hres]
  · rw [if_neg hch]
    left; rfl

/-- `hrsrStep` writes only its own channel's relay entry. -/
theorem hrsrStep_relays_ne (env : Env) (sa : Nat) (data : List Nat)
    (acc : DriverState) (j k : Fin 8) (h : k ≠ j) :
    (hrsrStep env sa data acc j).relays k = acc.relays k := by
  unfold hrsrStep
  split
  · set nv := ((data.getD (((j : Nat) - sa) * 2) 0) <<< 8 |||
      data.getD (((j : Nat) - sa) * 2 + 1) 0) == 0x0001 with hnv
    by_cases hch : (acc.relays j).isOn != nv
    · rw [if_pos hch, setUpdateBits_relays, updateRelay_relays_ne _ _ _ _ h]
    · rw [if_neg hch]
      exact updateRelay_relays_ne _ _ _ _ h
  · rfl

/-- `hrsrStep` raises only its own channel's update bit, and only while
recording a changed, confirmed value. -/
theorem hrsrStep_update_spec (env : Env) (sa : Nat) (data : List Nat)
    (acc : DriverState) (j : Fin 8) :
    (hrsrStep env sa data acc j).updateBits = acc.updateBits ∨
    ((hrsrStep env sa data acc j).updateBits = acc.updateBits ||| RELAY_UPDATE_BITS j ∧
     ((hrsrStep env sa data acc j).relays j).stateConfirmed = true ∧
     ((hrsrStep env sa data acc j).relays j).isOn ≠ (acc.relays j).isOn) := by
  unfold hrsrStep
  split
  · set nv := ((data.getD (((j : Nat) - sa) * 2) 0) <<< 8 |||
      data.getD (((j : Nat) - sa) * 2 + 1) 0) == 0x0001 with hnv
    by_cases hch : (acc.relays j).isOn != nv
    · rw [if_pos hch]
      by_cases hres : acc.resourcesOk
      · right
        refine ⟨by simp [setUpdateBits, updateRelay, hres], ?_, ?_⟩
        · rw [setUpdateBits_relays, updateRelay_relays_same]
        · rw [setUpdateBits_relays, updateRelay_relays_same]
          exact Ne.symm (bne_iff_ne.mp hch)
      · left; simp [setUpdateBits, updateRelay, hres]
    · rw [if_neg hch]
      left; rfl
  · left; rfl

theorem setInitBit_updateBits (s : DriverState) (b : Nat) :
    (setInitBit s b).updateBits = s.updateBits := by
  unfold setInitBit; split <;> rfl

theorem setInitBit_relays (s : DriverState) (b : Nat) :
    (setInitBit s b).relays = s.relays := by
  unfold setInitBit; split <;> rfl

theorem clearErrorBits_updateBits (s : DriverState) (m : Nat) :
    (clearErrorBits s m).updateBits = s.updateBits := by
  unfold clearErrorBits; split <;> rfl

theorem clearErrorBits_relays (s : DriverState) (m : Nat) :
    (clearErrorBits s m).relays = s.relays := by
  unfold clearErrorBits; split <;> rfl

theorem clearErrorBits_resourcesOk (s : DriverState) (m : Nat) :
    (clearErrorBits s m).resourcesOk = s.resourcesOk := by
  unfold clearErrorBits; split <;> rfl

/-- `RetryPolicy_execute` under `modbusDefault` (0 retries) is a single
attempt with no sleeps. -/
theorem RetryPolicy_execute_modbusDefault (op : Nat → Bool) (rand : Nat → Nat) :
    RetryPolicy_execute modbusDefault op rand = ⟨op 0, 1, []⟩ := rfl

/-- Folding the relay-reset update over a list of channels records OFF and
confirmed for every channel in the list. -/
theorem foldl_reset_proj (t : Nat) :
    ∀ (l : List (Fin 8)) (acc : DriverState) (i : Fin 8), i ∈ l →
      (((l.foldl (fun a (j : Fin 8) => updateRelay a j fun r =>
          { r with isOn := false, stateConfirmed := true, lastUpdateTime := t }) acc).relays
        i).isOn = false ∧
       ((l.foldl (fun a (j : Fin 8) => updateRelay a j fun r =>
          { r with isOn := false, stateConfirmed := true, lastUpdateTime := t }) acc).relays
        i).stateConfirmed = true) := by
  intro l
  induction l with
  | nil => intro acc i h; simp at h
  | cons j l ih =>
      intro acc i hmem
      rw [List.foldl_cons]
      by_cases hl : i ∈ l
      · exact ih _ i hl
      · have hij : i = j := by
          rcases List.mem_cons.mp hmem with h | h
          · exact h
          · exact absurd h hl
        subst hij
        have huntouched := foldl_relays_untouched
          (fun a (j : Fin 8) => updateRelay a j fun r =>
            { r with isOn := false, stateConfirmed := true, lastUpdateTime := t })
          (fun acc j k hk => updateRelay_relays_ne _ _ _ _ hk) l
          (updateRelay acc i fun r =>
            { r with isOn := false, stateConfirmed := true, lastUpdateTime := t }) i hl
        rw [huntouched, updateRelay_relays_same]
        exact ⟨rfl, rfl⟩

/-- The reset block always performs exactly one FC 0x10 write of eight
`CMD_DELAY_BASE` values at register 0. -/
theorem relayResetStep_calls (env : Env) (s : DriverState) :
    (relayResetStep env s).2 =
      [TransportCall.writeMultipleReg 0 (List.replicate 8 CMD_DELAY_BASE)] := by
  simp only [relayResetStep]
  split <;> rfl

theorem setUpdateBits_updateBits_of (s : DriverState) (m : Nat)
    (h : s.resourcesOk = true) :
    (setUpdateBits s m).updateBits = s.updateBits ||| m := by
  unfold setUpdateBits; rw [if_pos h]

/-- `controlRelay` on a valid channel `k+1` when online with resources, for
an action with a direct command value, and a succeeding write: the success
branch in closed form. -/
theorem controlRelay_success_state (env : Env) (s : DriverState) (k : Fin 8)
    (action : RelayAction) (cv : Nat)
    (hoff : s.moduleOffline = false) (hres : s.resourcesOk = true)
    (hcv : controlCommandValue action = some cv)
    (hw : env.writeSingle (k : Nat) cv = true) :
    controlRelay env s ((k : Nat) + 1) action =
      ⟨.SUCCESS,
       setUpdateBits
         (clearErrorBits
           (updateRelay s k fun r =>
             { r with lastCommandSuccess := true, lastUpdateTime := env.tick,
                      stateConfirmed := false,
                      isOn := expectedStateFor action (s.relays k).isOn })
           (RELAY_ERROR_BITS k))
         (RELAY_UPDATE_BITS k),
       [.writeSingleReg (k : Nat) cv]⟩ := by
  unfold controlRelay
  rw [if_neg (by simp [hoff]), if_neg (by simp [hres]),
    dif_neg (by have hk := k.isLt; omega)]
  simp only [hcv, RetryPolicy_execute_modbusDefault, Nat.add_sub_cancel, Fin.eta]
  rw [if_pos hw]
  rfl

/-- `readRelayStatus` on a valid channel `k+1` when online with a succeeding
single-register read: the success branch in closed form. -/
theorem readRelayStatus_success_state (env : Env) (s : DriverState) (k : Fin 8)
    (v : Nat) (rest : List Nat) (hoff : s.moduleOffline = false)
    (hrd : env.readHolding (k : Nat) 1 = some (v :: rest)) :
    readRelayStatus env s ((k : Nat) + 1) =
      ⟨.SUCCESS, some (v == 0x0001),
       setUpdateBits
         (if env.instanceMutexOk = true then
           updateRelay s k fun r =>
             { r with isOn := v == 0x0001, stateConfirmed := true }
          else s)
         (RELAY_UPDATE_BITS k),
       [.readH (k : Nat) 1]⟩ := by
  unfold readRelayStatus
  rw [if_neg (by simp [hoff]), dif_neg (by have hk := k.isLt; omega)]
  simp only [Nat.add_sub_cancel, Fin.eta, hrd]


end RYN4V

/-- C5: whenever the module-offline flag is set, `controlRelay`,
`readRelayStatus`, `readAllRelayStatus`, `setMultipleRelayStates` and
`setMultipleRelayCommands` all return `MODBUS_ERROR` immediately, perform
zero transport calls, and leave the whole driver state (every channel's
stored state, update bit and error bit) unchanged. -/
theorem C5_offline_short_circuits (env : RYN4V.Env) (s : RYN4V.DriverState)
    (hoff : s.moduleOffline = true) :
    (∀ i action, RYN4V.controlRelay env s i action = ⟨.MODBUS_ERROR, s, []⟩) ∧
    (∀ i, RYN4V.readRelayStatus env s i = ⟨.MODBUS_ERROR, none, s, []⟩) ∧
    RYN4V.readAllRelayStatus env s = ⟨.MODBUS_ERROR, s, []⟩ ∧
    (∀ states, RYN4V.setMultipleRelayStates env s states = ⟨.MODBUS_ERROR, s, []⟩) ∧
    (∀ commands, RYN4V.setMultipleRelayCommands env s commands = ⟨.MODBUS_ERROR, s, []⟩) := by
  refine ⟨fun i a => ?_, fun i => ?_, ?_, fun st => ?_, fun c => ?_⟩ <;>
    simp [RYN4V.controlRelay, RYN4V.readRelayStatus, RYN4V.readAllRelayStatus,
      RYN4V.setMultipleRelayStates, RYN4V.setMultipleRelayCommands, hoff]

/-- C5 witness: the theorem applied to the constructor state with the
offline flag raised, in a benign environment. -/
theorem C5_offline_witness :
    RYN4V.controlRelay RYN4V.sampleEnv RYN4V.offlineDriverState 3 .OPEN =
      ⟨.MODBUS_ERROR, RYN4V.offlineDriverState, []⟩ ∧
    RYN4V.readRelayStatus RYN4V.sampleEnv RYN4V.offlineDriverState 3 =
      ⟨.MODBUS_ERROR, none, RYN4V.offlineDriverState, []⟩ ∧
    RYN4V.readAllRelayStatus RYN4V.sampleEnv RYN4V.offlineDriverState =
      ⟨.MODBUS_ERROR, RYN4V.offlineDriverState, []⟩ ∧
    RYN4V.setMultipleRelayStates RYN4V.sampleEnv RYN4V.offlineDriverState (fun _ => true) =
      ⟨.MODBUS_ERROR, RYN4V.offlineDriverState, []⟩ ∧
    RYN4V.setMultipleRelayCommands RYN4V.sampleEnv RYN4V.offlineDriverState
      (fun _ => ⟨.OPEN, 0⟩) = ⟨.MODBUS_ERROR, RYN4V.offlineDriverState, []⟩ := by
  obtain ⟨h1, h2, h3, h4, h5⟩ :=
    C5_offline_short_circuits RYN4V.sampleEnv RYN4V.offlineDriverState rfl
  exact ⟨h1 3 .OPEN, h2 3, h3, h4 _, h5 _⟩

/-- C9 counterexample: for an index outside 1..8 the result is NOT always
`INVALID_INDEX` — with the offline flag set, `controlRelay` returns
`MODBUS_ERROR` for index 0 because the offline short-circuit runs before the
index check. -/
theorem C9_invalid_index_counterexample :
    ((0 : Nat) < 1 ∨ 8 < (0 : Nat)) ∧
    (RYN4V.controlRelay RYN4V.sampleEnv RYN4V.offlineDriverState 0 .OPEN).code =
      .MODBUS_ERROR ∧
    RYN4V.RelayErrorCode.MODBUS_ERROR ≠ RYN4V.RelayErrorCode.INVALID_INDEX := by
  exact ⟨Or.inl (by decide), rfl, by decide⟩

/-- C9 (amended): for every channel index outside 1..8, `getRelayState`
returns `INVALID_INDEX` unconditionally, and `controlRelay` /
`readRelayStatus` return `INVALID_INDEX` provided the module-offline flag is
clear (the offline short-circuit, returning `MODBUS_ERROR`, runs first; for
`controlRelay` also provided the event-group resources exist); in each case
the check is purely local: no transport call is made and the driver state is
unchanged. -/
theorem C9_invalid_index_amended (env : RYN4V.Env) (s : RYN4V.DriverState)
    (relayIndex : Nat) (hidx : relayIndex < 1 ∨ 8 < relayIndex) :
    RYN4V.getRelayState env s relayIndex = .error .INVALID_INDEX ∧
    (s.moduleOffline = false → s.resourcesOk = true → ∀ action,
      RYN4V.controlRelay env s relayIndex action = ⟨.INVALID_INDEX, s, []⟩) ∧
    (s.moduleOffline = false →
      RYN4V.readRelayStatus env s relayIndex = ⟨.INVALID_INDEX, none, s, []⟩) := by
  refine ⟨?_, fun hoff hres a => ?_, fun hoff => ?_⟩
  · unfold RYN4V.getRelayState
    rw [dif_pos hidx]
  · unfold RYN4V.controlRelay
    rw [if_neg (by simp [hoff]), if_neg (by simp [hres]), dif_pos hidx]
  · unfold RYN4V.readRelayStatus
    rw [if_neg (by simp [hoff]), dif_pos hidx]

/-- C9 witness: the amended theorem at index 9 on the online constructor
state. -/
theorem C9_invalid_index_witness :
    RYN4V.getRelayState RYN4V.sampleEnv RYN4V.initialDriverState 9 =
      .error .INVALID_INDEX ∧
    RYN4V.controlRelay RYN4V.sampleEnv RYN4V.initialDriverState 9 .OPEN =
      ⟨.INVALID_INDEX, RYN4V.initialDriverState, []⟩ ∧
    RYN4V.readRelayStatus RYN4V.sampleEnv RYN4V.initialDriverState 9 =
      ⟨.INVALID_INDEX, none, RYN4V.initialDriverState, []⟩ := by
  obtain ⟨h1, h2, h3⟩ := C9_invalid_index_amended RYN4V.sampleEnv
    RYN4V.initialDriverState 9 (by decide)
  exact ⟨h1, h2 rfl rfl .OPEN, h3 rfl⟩

/-- C8: enqueuing into a full command queue (zero spaces available) returns
`false` immediately and leaves the queue unmodified; a command is enqueued
(result `true`) only when at least one space is available, and then it is
appended at the tail. -/
theorem C8_queue_full_rejects (q : RYN4V.CommandQueue) (cmd : RYN4V.RelayCommand) :
    (q.capacity ≤ q.items.length →
      RYN4V.queueCommand (some q) cmd = (false, some q)) ∧
    ((RYN4V.queueCommand (some q) cmd).1 = true →
      q.items.length < q.capacity ∧
      (RYN4V.queueCommand (some q) cmd).2 = some ⟨q.items ++ [cmd], q.capacity⟩) := by
  constructor
  · intro h
    have hz : RYN4V.uxQueueSpacesAvailable q = 0 := by
      unfold RYN4V.uxQueueSpacesAvailable; omega
    simp [RYN4V.queueCommand, hz]
  · intro h
    simp only [RYN4V.queueCommand] at h ⊢
    by_cases hfull : RYN4V.uxQueueSpacesAvailable q == 0
    · rw [if_pos hfull] at h; simp at h
    · rw [if_neg hfull]
      have hne : RYN4V.uxQueueSpacesAvailable q ≠ 0 := by
        simpa using hfull
      unfold RYN4V.uxQueueSpacesAvailable at hne
      exact ⟨by omega, rfl⟩

/-- C8 witness: a queue of capacity 2 holding 2 items rejects a further
command unchanged, and the same command enqueued into an empty queue of
capacity 2 is appended. -/
theorem C8_queue_full_witness :
    RYN4V.queueCommand (some ⟨[RYN4V.sampleCommand, RYN4V.sampleCommand], 2⟩)
      RYN4V.sampleCommand =
      (false, some ⟨[RYN4V.sampleCommand, RYN4V.sampleCommand], 2⟩) ∧
    ((0 : Nat) < 2 ∧
      (RYN4V.queueCommand (some ⟨[], 2⟩) RYN4V.sampleCommand).2 =
        some ⟨[] ++ [RYN4V.sampleCommand], 2⟩) := by
  constructor
  · exact (C8_queue_full_rejects ⟨[RYN4V.sampleCommand, RYN4V.sampleCommand], 2⟩
      RYN4V.sampleCommand).1 (by decide)
  · have h := (C8_queue_full_rejects ⟨[], 2⟩ RYN4V.sampleCommand).2 rfl
    exact ⟨h.1, h.2⟩

/-- C7: for every channel in 1..8, issuing `MAX_RELAY_TOGGLE_RATE_PER_MIN + 1
= 31` toggle requests within one 60 s window, each 150 ms
(`MIN_RELAY_SWITCH_INTERVAL_MS`) after the previous one, admits the first 30
and rejects the 31st; `updateRateLimitCounters` leaves the state untouched
while the window has not elapsed (reset only on elapse, not on every check);
and once the window has elapsed, the counters reset and the channel's next
toggle is admitted. -/
theorem C7_rate_limit_window (relayIndex : Nat)
    (h1 : 1 ≤ relayIndex) (h2 : relayIndex ≤ 8) :
    (RYN4V.runRateChecks relayIndex
        ((List.range 31).map fun k => 1000 + 150 * k)
        (RYN4V.freshRateLimitState 1000)).1 =
      List.replicate 30 true ++ [false] ∧
    (∀ now s, RYN4V.wsub now s.rateWindowStart < RYN4V.pdMS_TO_TICKS 60000 →
      RYN4V.updateRateLimitCounters now s = s) ∧
    (RYN4V.checkRateLimit 61100
      (RYN4V.updateRateLimitCounters 61100
        (RYN4V.runRateChecks relayIndex
          ((List.range 31).map fun k => 1000 + 150 * k)
          (RYN4V.freshRateLimitState 1000)).2) relayIndex).1 = true := by
  refine ⟨?_, fun now s h => ?_, ?_⟩
  · interval_cases relayIndex <;> decide
  · unfold RYN4V.updateRateLimitCounters
    rw [if_neg (not_le.mpr h)]
  · interval_cases relayIndex <;> decide

/-- C7 witness: the theorem at channel 5, plus the no-reset clause applied
at tick 2000 on a window started at tick 1000. -/
theorem C7_rate_limit_witness :
    (RYN4V.runRateChecks 5
        ((List.range 31).map fun k => 1000 + 150 * k)
        (RYN4V.freshRateLimitState 1000)).1 =
      List.replicate 30 true ++ [false] ∧
    RYN4V.updateRateLimitCounters 2000 (RYN4V.freshRateLimitState 1000) =
      RYN4V.freshRateLimitState 1000 ∧
    (RYN4V.checkRateLimit 61100
      (RYN4V.updateRateLimitCounters 61100
        (RYN4V.runRateChecks 5
          ((List.range 31).map fun k => 1000 + 150 * k)
          (RYN4V.freshRateLimitState 1000)).2) 5).1 = true := by
  obtain ⟨ha, hb, hc⟩ := C7_rate_limit_window 5 (by decide) (by decide)
  exact ⟨ha, hb 2000 (RYN4V.freshRateLimitState 1000) (by decide), hc⟩

/-- C4: evidence of the divergence.  With module settings reading fine but
the initial status seeding failing for channel 1 (batch read fails, channel
1's fallback read fails, channels 2..8 read fine), `initializeModuleSettings`
still finishes with BOTH lifecycle ready bits (`DEVICE_RESPONSIVE` and
`RELAY_CONFIG`) raised — the final completion step sets `InitBits::ALL_BITS`
unconditionally — even though channel 1's state is recorded unconfirmed, and
even though the guarded `setInitializationBit(RELAY_CONFIG)` a few lines
earlier had correctly declined to raise `RELAY_CONFIG`. -/
theorem C4_ready_bits_raised_despite_unconfirmed_channel :
    (RYN4V.initializeModuleSettings RYN4V.c4Env ⟨false, false⟩
      RYN4V.initialDriverState).ok = true ∧
    ((RYN4V.initializeModuleSettings RYN4V.c4Env ⟨false, false⟩
      RYN4V.initialDriverState).state.relays 0).stateConfirmed = false ∧
    (RYN4V.initializeModuleSettings RYN4V.c4Env ⟨false, false⟩
      RYN4V.initialDriverState).state.initBits &&& RYN4V.INIT_ALL_BITS =
      RYN4V.INIT_ALL_BITS := by
  refine ⟨rfl, by decide, by decide⟩

/-- C6: when initialization runs with `resetRelaysOnInit = true` (and the
configuration-register reads that precede the reset succeed), the known-OFF
baseline is forced by writing the zero-delay value `CMD_DELAY_BASE = 0x0600`
to all eight channel registers in one FC 0x10 write — not the plain OFF
command `0x0200` and not `ALL_OFF = 0x0800` — and on a successful write every
channel is recorded in the state store as OFF and confirmed. -/
theorem C6_reset_baseline (env : RYN4V.Env) (cfg : RYN4V.InitConfig)
    (s : RYN4V.DriverState) (hreset : cfg.resetRelaysOnInit = true)
    (a : Nat) (la : List Nat) (hA : env.readHolding 0xFD 1 = some (a :: la))
    (b : Nat) (lb : List Nat) (hB : env.readHolding 0xFE 1 = some (b :: lb))
    (p : Nat) (lp : List Nat) (hP : env.readHolding 0xFF 1 = some (p :: lp))
    (d : Nat) (ld : List Nat) (hD : env.readHolding 0xFC 1 = some (d :: ld))
    (hmx : env.initMutexOk = true) (hresp : env.responsive = true)
    (hw : env.writeMultiple 0 (List.replicate 8 RYN4V.CMD_DELAY_BASE) = true) :
    RYN4V.CMD_DELAY_BASE = 0x0600 ∧
    RYN4V.CMD_DELAY_BASE ≠ RYN4V.CMD_OFF ∧
    RYN4V.CMD_DELAY_BASE ≠ RYN4V.CMD_ALL_OFF ∧
    RYN4V.TransportCall.writeMultipleReg 0 (List.replicate 8 RYN4V.CMD_DELAY_BASE) ∈
      (RYN4V.initializeModuleSettings env cfg s).calls ∧
    (∀ s0 : RYN4V.DriverState, ∀ i : Fin 8,
      ((RYN4V.relayResetStep env s0).1.relays i).isOn = false ∧
      ((RYN4V.relayResetStep env s0).1.relays i).stateConfirmed = true) := by
  refine ⟨rfl, by decide, by decide, ?_, ?_⟩
  · simp [RYN4V.initializeModuleSettings, hmx, hresp, hA, hB, hP, hD, hreset,
      RYN4V.relayResetStep_calls]
  · intro s0 i
    simp only [RYN4V.relayResetStep]
    rw [if_pos hw]
    exact RYN4V.foldl_reset_proj env.tick (List.finRange 8) s0 i (List.mem_finRange i)

/-- C6 witness: the theorem in the benign environment with both reset and
skip flags set, checked on channel 1. -/
theorem C6_reset_baseline_witness :
    RYN4V.CMD_DELAY_BASE = 0x0600 ∧
    RYN4V.TransportCall.writeMultipleReg 0 (List.replicate 8 RYN4V.CMD_DELAY_BASE) ∈
      (RYN4V.initializeModuleSettings RYN4V.sampleEnv ⟨true, true⟩
        RYN4V.initialDriverState).calls ∧
    ((RYN4V.relayResetStep RYN4V.sampleEnv RYN4V.initialDriverState).1.relays 0).isOn =
      false ∧
    ((RYN4V.relayResetStep RYN4V.sampleEnv
      RYN4V.initialDriverState).1.relays 0).stateConfirmed = true := by
  obtain ⟨hc, _, _, hmem, hall⟩ := C6_reset_baseline RYN4V.sampleEnv ⟨true, true⟩
    RYN4V.initialDriverState rfl 0 [] rfl 0 [] rfl 0 [] rfl 0 [] rfl rfl rfl rfl
  exact ⟨hc, hmem, (hall RYN4V.initialDriverState 0).1, (hall RYN4V.initialDriverState 0).2⟩

/-- C2 counterexample: a successful `controlRelay(1, CLOSE)` on a relay that
is already OFF raises channel 1's update bit even though it leaves the stored
value unchanged AND records the state as unconfirmed — refuting "an operation
that leaves channel i's stored state unchanged, or that records the state as
unconfirmed, never sets channel i's update bit". -/
theorem C2_update_bit_counterexample :
    (RYN4V.controlRelay RYN4V.sampleEnv RYN4V.initialDriverState 1 .CLOSE).code =
      .SUCCESS ∧
    (RYN4V.controlRelay RYN4V.sampleEnv RYN4V.initialDriverState 1
      .CLOSE).state.updateBits.testBit 1 = true ∧
    RYN4V.initialDriverState.updateBits.testBit 1 = false ∧
    ((RYN4V.controlRelay RYN4V.sampleEnv RYN4V.initialDriverState 1
      .CLOSE).state.relays 0).stateConfirmed = false ∧
    ((RYN4V.controlRelay RYN4V.sampleEnv RYN4V.initialDriverState 1
      .CLOSE).state.relays 0).isOn = (RYN4V.initialDriverState.relays 0).isOn := by
  refine ⟨rfl, by decide, by decide, by decide, by decide⟩

/-- C2 (amended): channel i's update bit is raised only by operations
addressing channel i, but the raising discipline differs per operation: the
async status handler (`handleRelayStatusResponse`) and the batch status read
(`readAllRelayStatus`) raise it exactly when they record a changed, confirmed
value; a successful single-channel write (`controlRelay`) raises it after
every successful transport write even though it records the state as
unconfirmed (and possibly unchanged); and a successful single-channel status
read (`readRelayStatus`) raises it after every successful read even when the
value is unchanged. -/
theorem C2_update_bit_semantics_amended :
    (∀ (env : RYN4V.Env) (s : RYN4V.DriverState) (sa : Nat) (data : List Nat)
        (k : Fin 8),
      (RYN4V.handleRelayStatusResponse env s sa data).updateBits.testBit
        (3 * (k : Nat) + 1) = true →
      s.updateBits.testBit (3 * (k : Nat) + 1) = true ∨
        (((RYN4V.handleRelayStatusResponse env s sa data).relays k).stateConfirmed =
          true ∧
         ((RYN4V.handleRelayStatusResponse env s sa data).relays k).isOn ≠
          (s.relays k).isOn)) ∧
    (∀ (env : RYN4V.Env) (s : RYN4V.DriverState) (k : Fin 8),
      (RYN4V.readAllRelayStatus env s).state.updateBits.testBit
        (3 * (k : Nat) + 1) = true →
      s.updateBits.testBit (3 * (k : Nat) + 1) = true ∨
        (((RYN4V.readAllRelayStatus env s).state.relays k).stateConfirmed = true ∧
         ((RYN4V.readAllRelayStatus env s).state.relays k).isOn ≠
          (s.relays k).isOn)) ∧
    (∀ (env : RYN4V.Env) (s : RYN4V.DriverState) (k : Fin 8)
        (action : RYN4V.RelayAction) (cv : Nat),
      s.moduleOffline = false → s.resourcesOk = true →
      RYN4V.controlCommandValue action = some cv →
      env.writeSingle (k : Nat) cv = true →
      (RYN4V.controlRelay env s ((k : Nat) + 1) action).state.updateBits.testBit
        (3 * (k : Nat) + 1) = true ∧
      ((RYN4V.controlRelay env s ((k : Nat) + 1) action).state.relays
        k).stateConfirmed = false) ∧
    (∀ (env : RYN4V.Env) (s : RYN4V.DriverState) (k : Fin 8) (v : Nat)
        (rest : List Nat),
      s.moduleOffline = false → s.resourcesOk = true →
      env.readHolding (k : Nat) 1 = some (v :: rest) →
      (RYN4V.readRelayStatus env s ((k : Nat) + 1)).state.updateBits.testBit
        (3 * (k : Nat) + 1) = true) := by
  refine ⟨?_, ?_, ?_, ?_⟩
  · -- handleRelayStatusResponse
    intro env s sa data k hbit
    by_cases hm : env.instanceMutexOk = true
    · have heq : RYN4V.handleRelayStatusResponse env s sa data =
          (List.finRange 8).foldl (RYN4V.hrsrStep env sa data) s := by
        unfold RYN4V.handleRelayStatusResponse
        rw [if_neg (by simp [hm])]
      rw [heq] at hbit ⊢
      exact RYN4V.foldl_update_bit_only_changed (RYN4V.hrsrStep env sa data)
        (fun acc j k hk => RYN4V.hrsrStep_relays_ne env sa data acc j k hk)
        (RYN4V.hrsrStep_update_spec env sa data)
        (List.finRange 8) (List.nodup_finRange 8) s k hbit
    · have heq : RYN4V.handleRelayStatusResponse env s sa data = s := by
        unfold RYN4V.handleRelayStatusResponse
        rw [if_pos (by simp [hm])]
      rw [heq] at hbit
      exact Or.inl hbit
  · -- readAllRelayStatus
    intro env s k hbit
    by_cases hoff : s.moduleOffline = true
    · have heq : RYN4V.readAllRelayStatus env s = ⟨.MODBUS_ERROR, s, []⟩ := by
        unfold RYN4V.readAllRelayStatus
        rw [if_pos hoff]
      rw [heq] at hbit
      exact Or.inl hbit
    · rcases hrd : env.readHolding 0 8 with _ | vs
      · have heq : RYN4V.readAllRelayStatus env s =
            ⟨.MODBUS_ERROR, s, [.readH 0 8]⟩ := by
          unfold RYN4V.readAllRelayStatus
          rw [if_neg hoff]
          simp only [hrd]
        rw [heq] at hbit
        exact Or.inl hbit
      · by_cases hlen : (vs.length == 8) = true
        · by_cases hmx : env.instanceMutexOk = true
          · have heq : RYN4V.readAllRelayStatus env s =
                ⟨.SUCCESS,
                 RYN4V.setInitBit ((List.finRange 8).foldl (RYN4V.readAllStep env vs) s)
                   RYN4V.RELAY_CONFIG_BIT,
                 [.readH 0 8]⟩ := by
              unfold RYN4V.readAllRelayStatus
              rw [if_neg hoff]
              simp only [hrd]
              rw [if_pos hlen, if_neg (by simp [hmx])]
            rw [heq] at hbit ⊢
            rw [RYN4V.setInitBit_updateBits] at hbit
            rw [RYN4V.setInitBit_relays]
            exact RYN4V.foldl_update_bit_only_changed (RYN4V.readAllStep env vs)
              (fun acc j k hk => RYN4V.readAllStep_relays_ne env vs acc j k hk)
              (RYN4V.readAllStep_update_spec env vs)
              (List.finRange 8) (List.nodup_finRange 8) s k hbit
          · have heq : RYN4V.readAllRelayStatus env s =
                ⟨.MUTEX_ERROR, s, [.readH 0 8]⟩ := by
              unfold RYN4V.readAllRelayStatus
              rw [if_neg hoff]
              simp only [hrd]
              rw [if_pos hlen, if_pos (by simp [hmx])]
            rw [heq] at hbit
            exact Or.inl hbit
        · have heq : RYN4V.readAllRelayStatus env s =
              ⟨.MODBUS_ERROR, s, [.readH 0 8]⟩ := by
            unfold RYN4V.readAllRelayStatus
            rw [if_neg hoff]
            simp only [hrd]
            rw [if_neg hlen]
          rw [heq] at hbit
          exact Or.inl hbit
  · -- controlRelay success path
    intro env s k action cv hoff hres hcv hw
    rw [RYN4V.controlRelay_success_state env s k action cv hoff hres hcv hw]
    have hres1 : (RYN4V.clearErrorBits
        (RYN4V.updateRelay s k fun r =>
          { r with lastCommandSuccess := true, lastUpdateTime := env.tick,
                   stateConfirmed := false,
                   isOn := RYN4V.expectedStateFor action (s.relays k).isOn })
        (RYN4V.RELAY_ERROR_BITS k)).resourcesOk = true := by
      rw [RYN4V.clearErrorBits_resourcesOk]
      exact hres
    constructor
    · rw [RYN4V.setUpdateBits_updateBits_of _ _ hres1, RYN4V.RELAY_UPDATE_BITS_pow,
        Nat.testBit_lor, Nat.testBit_two_pow_self, Bool.or_true]
    · rw [RYN4V.setUpdateBits_relays, RYN4V.clearErrorBits_relays,
        RYN4V.updateRelay_relays_same]
  · -- readRelayStatus success path
    intro env s k v rest hoff hres hrd
    rw [RYN4V.readRelayStatus_success_state env s k v rest hoff hrd]
    have hres1 : (if env.instanceMutexOk = true then
        RYN4V.updateRelay s k fun r =>
          { r with isOn := v == 0x0001, stateConfirmed := true }
       else s).resourcesOk = true := by
      split <;> exact hres
    rw [RYN4V.setUpdateBits_updateBits_of _ _ hres1, RYN4V.RELAY_UPDATE_BITS_pow,
      Nat.testBit_lor, Nat.testBit_two_pow_self, Bool.or_true]

/-- C2 witness: the amended theorem at concrete inputs — the async handler
decoding channel 1 as newly ON, the batch read reporting channel 1 newly ON,
a successful `OPEN` write to channel 1, and a successful status read of
channel 1. -/
theorem C2_update_bit_semantics_witness :
    (RYN4V.initialDriverState.updateBits.testBit 1 = true ∨
      (((RYN4V.handleRelayStatusResponse RYN4V.c2Env RYN4V.initialDriverState 0
          [0, 1]).relays 0).stateConfirmed = true ∧
       ((RYN4V.handleRelayStatusResponse RYN4V.c2Env RYN4V.initialDriverState 0
          [0, 1]).relays 0).isOn ≠ (RYN4V.initialDriverState.relays 0).isOn)) ∧
    (RYN4V.initialDriverState.updateBits.testBit 1 = true ∨
      (((RYN4V.readAllRelayStatus RYN4V.c2Env
          RYN4V.initialDriverState).state.relays 0).stateConfirmed = true ∧
       ((RYN4V.readAllRelayStatus RYN4V.c2Env
          RYN4V.initialDriverState).state.relays 0).isOn ≠
        (RYN4V.initialDriverState.relays 0).isOn)) ∧
    ((RYN4V.controlRelay RYN4V.c2Env RYN4V.initialDriverState 1
        .OPEN).state.updateBits.testBit 1 = true ∧
     ((RYN4V.controlRelay RYN4V.c2Env RYN4V.initialDriverState 1
        .OPEN).state.relays 0).stateConfirmed = false) ∧
    (RYN4V.readRelayStatus RYN4V.c2Env
      RYN4V.initialDriverState 1).state.updateBits.testBit 1 = true := by
  obtain ⟨hA, hB, hC, hD⟩ := C2_update_bit_semantics_amended
  exact ⟨hA RYN4V.c2Env RYN4V.initialDriverState 0 [0, 1] 0 (by decide),
         hB RYN4V.c2Env RYN4V.initialDriverState 0 (by decide),
         hC RYN4V.c2Env RYN4V.initialDriverState 0 .OPEN 0x0100 rfl rfl rfl rfl,
         hD RYN4V.c2Env RYN4V.initialDriverState 0 1 [] rfl rfl rfl⟩

/-- C1: the write-side and read-side ON/OFF value spaces are distinct:
`boolToCommand true = CMD_ON = 0x0100` while `STATUS_ON = 0x0001`,
`boolToCommand false = CMD_OFF = 0x0200` while `STATUS_OFF = 0x0000`,
`statusToBool v` is true exactly when `v = 0x0001`, and so
`statusToBool (boolToCommand true)` is not true. -/
theorem C1_codec_value_spaces_disjoint :
    RYN4V.boolToCommand true = RYN4V.CMD_ON ∧ RYN4V.CMD_ON = 0x0100 ∧
    RYN4V.STATUS_ON = 0x0001 ∧
    RYN4V.boolToCommand false = RYN4V.CMD_OFF ∧ RYN4V.CMD_OFF = 0x0200 ∧
    RYN4V.STATUS_OFF = 0x0000 ∧
    (∀ v : Nat, RYN4V.statusToBool v = true ↔ v = 0x0001) ∧
    RYN4V.statusToBool (RYN4V.boolToCommand true) ≠ true := by
  refine ⟨rfl, rfl, rfl, rfl, rfl, rfl, ?_, by decide⟩
  intro v
  simp [RYN4V.statusToBool, RYN4V.STATUS_ON]

/-- C3 counterexample: the claim "every sleep performed between two
consecutive attempts is at most maxDelay ticks" fails: with
`maxRetries = 1`, `initialDelay = 5000`, `maxDelay = 1000`, multiplier 2 and
no jitter, an always-failing operation makes its single inter-attempt sleep
with the uncapped `initialDelay = 5000 > maxDelay = 1000` (the cap
`min(maxDelay, ...)` is only applied when computing the NEXT delay). -/
theorem C3_sleep_bound_counterexample :
    (RYN4V.RetryPolicy_execute
      ⟨1, 5000, 1000, 2, 0⟩ (fun _ => false) (fun _ => 0)).attemptsMade = 2 ∧
    (RYN4V.RetryPolicy_execute
      ⟨1, 5000, 1000, 2, 0⟩ (fun _ => false) (fun _ => 0)).success = false ∧
    5000 ∈ (RYN4V.RetryPolicy_execute
      ⟨1, 5000, 1000, 2, 0⟩ (fun _ => false) (fun _ => 0)).sleeps ∧
    ¬ (5000 ≤ (1000 : Nat)) := by
  refine ⟨rfl, rfl, ?_, by decide⟩
  show 5000 ∈ (RYN4V.executeLoop _ _ _ 1 0 5000).sleeps
  simp [RYN4V.executeLoop]

/-- C3 (amended): for every retry configuration with `maxRetries = N` and
every operation that never succeeds, `RetryPolicy::execute` makes exactly
`N + 1` attempts and returns `success = false`; and, provided
`jitterFactor = 0`, every sleep between two consecutive attempts is at most
`max initialDelay maxDelay` (the first sleep is the uncapped `initialDelay`;
the `min(maxDelay, ...)` cap is only applied from the second sleep on, and
with jitter enabled a sleep may additionally exceed the cap by the jitter
factor). -/
theorem C3_retry_exhaustion_amended (cfg : RYN4V.RetryConfig)
    (op : Nat → Bool) (rand : Nat → Nat) (hop : ∀ n, op n = false) :
    (RYN4V.RetryPolicy_execute cfg op rand).success = false ∧
    (RYN4V.RetryPolicy_execute cfg op rand).attemptsMade = cfg.maxRetries + 1 ∧
    (cfg.jitterFactor = 0 →
      ∀ d ∈ (RYN4V.RetryPolicy_execute cfg op rand).sleeps,
        d ≤ max cfg.initialDelay cfg.maxDelay) := by
  obtain ⟨h1, h2⟩ :=
    RYN4V.executeLoop_attempts_of_never cfg rand op hop cfg.maxRetries 0 cfg.initialDelay
  refine ⟨h1, by rw [RYN4V.RetryPolicy_execute, h2]; omega, ?_⟩
  intro hjit d hd
  exact RYN4V.executeLoop_sleeps_bound cfg rand op hjit cfg.maxRetries 0 cfg.initialDelay d hd

/-- C3 witness: the amended theorem instantiated at a concrete always-failing
operation with `maxRetries = 2`, `initialDelay = 50`, `maxDelay = 1000`,
multiplier 2 and no jitter. -/
theorem C3_retry_exhaustion_witness :
    (RYN4V.RetryPolicy_execute
      ⟨2, 50, 1000, 2, 0⟩ (fun _ => false) (fun _ => 0)).success = false ∧
    (RYN4V.RetryPolicy_execute
      ⟨2, 50, 1000, 2, 0⟩ (fun _ => false) (fun _ => 0)).attemptsMade = 2 + 1 ∧
    ∀ d ∈ (RYN4V.RetryPolicy_execute
      ⟨2, 50, 1000, 2, 0⟩ (fun _ => false) (fun _ => 0)).sleeps,
      d ≤ max 50 1000 := by
  have h := C3_retry_exhaustion_amended ⟨2, 50, 1000, 2, 0⟩
    (fun _ => false) (fun _ => 0) (fun _ => rfl)
  exact ⟨h.1, h.2.1, h.2.2 rfl⟩

/-- C10: for every relay `i` in 1..8, the `RelayUpdateBits` enumerator equals
`RELAY_UPDATE_BITS[i-1]` which is bit position `3*(i-1)+1`, the
`RelayErrorBits` enumerator equals `RELAY_ERROR_BITS[i-1]` which is bit
position `3*(i-1)+2`, and the aggregate masks `relayAllUpdateBits` /
`relayAllErrorBits` built from the enumerators equal the OR of the constant
arrays. -/
theorem C10_enum_and_array_bits_agree :
    (∀ i : Fin 8,
      RYN4V.RelayUpdateBitsEnum i = RYN4V.RELAY_UPDATE_BITS i ∧
      RYN4V.RELAY_UPDATE_BITS i = 2 ^ (3 * (i : Nat) + 1) ∧
      RYN4V.RelayErrorBitsEnum i = RYN4V.RELAY_ERROR_BITS i ∧
      RYN4V.RELAY_ERROR_BITS i = 2 ^ (3 * (i : Nat) + 2)) ∧
    RYN4V.relayAllUpdateBits = RYN4V.allUpdateBitsFromArray ∧
    RYN4V.relayAllErrorBits = RYN4V.allErrorBitsFromArray := by
  decide
